import Mathlib

/-!
Verification of the oahttp HTTP/1.x server core against its specification.

The Python sources are shallowly embedded: byte strings become `List Nat`
(one entry per byte, values < 256 are not enforced since nothing depends
on it), text strings become `String`, dictionaries become lookup
functions or association lists, and fallible code returns `Except PyErr`.
Python exceptions are represented by the `PyErr` constructors.  Machine
integers do not occur (Python integers are unbounded), so `Nat`/`Int`
are used directly.
-/

/-- Python exception kinds that the embedded code can raise.  `httpSyntax`
is `oahttp.request.HttpSyntaxError`; the others are Python builtins.
`bufferFull` and `limitReached` are the two messages of
`oahttp.base_protocol.BufferError`. -/
inductive PyErr where
  | httpSyntax
  | keyError
  | valueError
  | typeError
  | attributeError
  | assertionError
  | notImplementedErr
  | bufferFull
  | limitReached
  | outOfFuel
deriving DecidableEq, Repr

/-- The sliding read buffer of `oahttp.base_protocol.ReadBuffer`.
`buf` models the fixed-size `bytearray` (its length is the capacity),
`pos` the next unread byte, `pos_line` the newline-scan hint and `til`
the `until` cursor (next unwritten byte); `until` is renamed because it
reads poorly as a Lean field name. -/
structure ReadBuffer where
  buf : List Nat
  pos : Nat
  pos_line : Nat
  til : Nat
deriving DecidableEq, Repr

namespace ReadBuffer

/-- Slice `l[a:b]` of a byte list, Python style. -/
def sl (l : List Nat) (a b : Nat) : List Nat :=
  (l.drop a).take (b - a)

/-- The buffered window `[pos, until)`, i.e. the bytes written but not
yet consumed (`ReadBuffer.__buffer__`). -/
def window (b : ReadBuffer) : List Nat :=
  sl b.buf b.pos b.til

/-- The cursor invariant of the buffer
(`0 ≤ pos ≤ pos_line ≤ until ≤ capacity`). -/
def Inv (b : ReadBuffer) : Prop :=
  b.pos ≤ b.pos_line ∧ b.pos_line ≤ b.til ∧ b.til ≤ b.buf.length

instance (b : ReadBuffer) : Decidable b.Inv := by
  unfold Inv; infer_instance

/-- Fresh buffer of capacity `size` holding `init` bytes
(`ReadBuffer.__init__` with `init_bytes`); the `bytearray(size)` is
zero-filled. -/
def init (size : Nat) (initBytes : List Nat) : ReadBuffer :=
  { buf := initBytes ++ List.replicate (size - initBytes.length) 0
    pos := 0
    pos_line := 0
    til := initBytes.length }

/-- Hint normalisation of `write_buffer`:
`if not (0 < size_hint < total_size): size_hint = total_size // 4`. -/
def effHint (sizeHint : Int) (total : Nat) : Nat :=
  if 0 < sizeHint ∧ sizeHint < (total : Int) then sizeHint.toNat else total / 4

/-- `ReadBuffer.write_buffer(size_hint)`: normalises the hint, realigns
or fails, and returns the length of the writable tail slice
`view[until:]` together with the new state.  The realignment
`view[:cur_size] = view[pos:until]` copies the window down to offset 0
(a forward copy, well defined since the destination starts below the
source). -/
def write_buffer (sizeHint : Int) (b : ReadBuffer) :
    Except PyErr (Nat × ReadBuffer) :=
  let total := b.buf.length
  let hint : Nat := effHint sizeHint total
  if total < b.til + hint then
    if 0 < b.pos then
      let cur := b.til - b.pos
      Except.ok (total - cur,
        { buf := (b.buf.drop b.pos).take cur ++ b.buf.drop cur
          pos := 0
          pos_line := 0
          til := cur })
    else if total ≤ b.til then
      Except.error PyErr.bufferFull
    else
      Except.ok (total - b.til, b)
  else
    Except.ok (total - b.til, b)

/-- Writing `data` into the slice returned by `write_buffer` followed by
`ReadBuffer.written(len(data))`. -/
def write_data (data : List Nat) (b : ReadBuffer) : ReadBuffer :=
  { b with
    buf := b.buf.take b.til ++ data ++ b.buf.drop (b.til + data.length)
    til := b.til + data.length }

/-- First index `i ∈ [start, stop)` with `l[i] = 10`, i.e.
`bytes.find(b'\n', start, stop)` (with `none` for `-1`). -/
def findLF (l : List Nat) (start stop : Nat) : Option Nat :=
  (List.range' start (stop - start)).find? (fun i => l.getD i 0 == 10)

/-- `ReadBuffer.read_line(limit)`: scan for LF in
`[pos_line, min(pos+limit, until))`; on a miss inside the limit raise
`BufferError("limit reached")`, on a miss at `until` record the scan
hint and return `none`; on a hit consume through the LF and return the
line with one trailing CR trimmed. -/
def read_line (limit : Nat) (b : ReadBuffer) :
    Except PyErr (Option (List Nat) × ReadBuffer) :=
  let stop := min (b.pos + limit) b.til
  match findLF b.buf b.pos_line stop with
  | none =>
      if stop ≠ b.til then
        Except.error PyErr.limitReached
      else
        Except.ok (none, { b with pos_line := max b.pos (b.til - 1) })
  | some lf =>
      let cr := if 0 < lf ∧ b.buf.getD (lf - 1) 0 = 13 then lf - 1 else lf
      Except.ok (some (sl b.buf b.pos cr),
        { b with pos := lf + 1, pos_line := lf + 1 })

/-- `ReadBuffer.read(nbytes)`: consume up to `nbytes` bytes (all buffered
bytes when `nbytes` is not in `(0, until-pos)`), returning the view and
the new state. -/
def read (nbytes : Int) (b : ReadBuffer) : List Nat × ReadBuffer :=
  let avail := b.til - b.pos
  let count := if 0 < nbytes ∧ nbytes < (avail : Int) then nbytes.toNat else avail
  (sl b.buf b.pos (b.pos + count),
   { b with pos := b.pos + count, pos_line := b.pos + count })

end ReadBuffer

/-- One external interaction with a `ReadBuffer`: a transport delivery
(`write_buffer` + filling the slice + `written`), a consumer `read`, or
a consumer `read_line`. -/
inductive BufOp where
  | write (sizeHint : Int) (data : List Nat)
  | rd (nbytes : Int)
  | rdLine (limit : Nat)
deriving DecidableEq, Repr

/-- The bytes a single operation delivers into the buffer. -/
def opWrite : BufOp → List Nat
  | BufOp.write _ d => d
  | _ => []

/-- The bytes delivered across a sequence of operations. -/
def writesOf : List BufOp → List Nat
  | [] => []
  | op :: ops => opWrite op ++ writesOf ops

/-- Execute one operation.  The result is
`(consumed bytes, returned bytes, new state)`:
`consumed` is the span the cursor `pos` moved over (for `read_line` the
line *plus* its LF/CRLF terminator), `returned` is what the caller got
back (for `read_line` the line with the terminator stripped).  `none`
covers both a raised `BufferError` and a violation of the `written`
contract (reporting more bytes than the offered slice). -/
def stepOp : BufOp → ReadBuffer → Option (List Nat × List Nat × ReadBuffer)
  | BufOp.write h data, b =>
    match ReadBuffer.write_buffer h b with
    | Except.error _ => none
    | Except.ok (free, b₁) =>
        if data.length ≤ free then
          some ([], [], ReadBuffer.write_data data b₁)
        else none
  | BufOp.rd n, b =>
    let r := ReadBuffer.read n b
    some (r.1, r.1, r.2)
  | BufOp.rdLine limit, b =>
    match ReadBuffer.read_line limit b with
    | Except.error _ => none
    | Except.ok (none, b') => some ([], [], b')
    | Except.ok (some line, b') =>
        some (ReadBuffer.sl b.buf b.pos b'.pos, line, b')

/-- Run a sequence of operations, concatenating all consumed and all
returned bytes. -/
def runOps : List BufOp → ReadBuffer → Option (List Nat × List Nat × ReadBuffer)
  | [], b => some ([], [], b)
  | op :: ops, b =>
    match stepOp op b with
    | none => none
    | some (c, r, b') =>
      match runOps ops b' with
      | none => none
      | some (cs, rs, b'') => some (c ++ cs, r ++ rs, b'')

/-- ASCII decimal digit. -/
def isDigitByte (c : Nat) : Bool :=
  decide (48 ≤ c ∧ c ≤ 57)

/-- Hexadecimal digit (either case), as accepted by Python `int(_, 16)`. -/
def isHexDigit (c : Nat) : Bool :=
  decide ((48 ≤ c ∧ c ≤ 57) ∨ (65 ≤ c ∧ c ≤ 70) ∨ (97 ≤ c ∧ c ≤ 102))

/-- Uppercase-only hex digit, the `[0-9A-F]` class of `RE_CHUNK`. -/
def isHexUpper (c : Nat) : Bool :=
  decide ((48 ≤ c ∧ c ≤ 57) ∨ (65 ≤ c ∧ c ≤ 70))

/-- The `\s` class of Python byte regexes / `bytes.strip()` whitespace. -/
def isPySpace (c : Nat) : Bool :=
  decide (c = 32 ∨ c = 9 ∨ c = 10 ∨ c = 13 ∨ c = 11 ∨ c = 12)

/-- The HTTP token byte class of `http_util.TOKEN`
(`-!#$%&'*+.^_` backtick `|~`, digits and both letter cases). -/
def isTokenByte (c : Nat) : Bool :=
  decide (c ∈ [45, 33, 35, 36, 37, 38, 39, 42, 43, 46, 94, 95, 96, 124, 126] ∨
    (48 ≤ c ∧ c ≤ 57) ∨ (65 ≤ c ∧ c ≤ 90) ∨ (97 ≤ c ∧ c ≤ 122))

/-- `bytes.lower()` on one byte. -/
def toLowerByte (c : Nat) : Nat :=
  if 65 ≤ c ∧ c ≤ 90 then c + 32 else c

/-- Value of a hex digit byte. -/
def hexVal (c : Nat) : Nat :=
  if c ≤ 57 then c - 48 else if c ≤ 70 then c - 55 else c - 87

/-- `RE_CHUNK = rb'([0-9A-F]+)(?:\s*;|$)'` applied with `fullmatch`:
the whole line must be uppercase-hex digits followed either by nothing
or by optional whitespace and a final semicolon (a chunk extension after
the semicolon makes the fullmatch fail).  Returns `m.group(0)` — the
*entire* line — because `receive_data` parses group 0, not the digit
group. -/
def re_chunk_fullmatch (line : List Nat) : Option (List Nat) :=
  let digits := line.takeWhile isHexUpper
  let rest := line.dropWhile isHexUpper
  if digits.isEmpty then none
  else if rest.isEmpty then some line
  else if rest.dropWhile isPySpace = [59] then some line
  else none

/-- Python `int(s, 16)` on the byte strings reachable here: optional
surrounding whitespace then one-or-more hex digits.  (Python also
accepts a sign and underscore separators; neither can occur in a string
that `RE_CHUNK` matched, which is the only call site.) -/
def int16? (s : List Nat) : Option Nat :=
  let t := (((s.dropWhile isPySpace).reverse).dropWhile isPySpace).reverse
  if t.isEmpty ∨ ¬ t.all isHexDigit then none
  else some (t.foldl (fun acc c => acc * 16 + hexVal c) 0)

/-- The chunk-size-line handling of `ChunkedBodyReceiver.receive_data`:
`RE_CHUNK.fullmatch(line)` with a failed match raising
`HttpSyntaxError("Syntax error in chunk")`, then `int(m.group(0), 16)`
whose `ValueError` is re-raised as
`HttpSyntaxError("Invalid chunk size")`. -/
def parse_chunk_size (line : List Nat) : Except PyErr Nat :=
  match re_chunk_fullmatch line with
  | none => Except.error PyErr.httpSyntax
  | some g0 =>
    match int16? g0 with
    | none => Except.error PyErr.httpSyntax
    | some size => Except.ok size

/-- `RE_HEADER = rb'(TOKEN):\s*(.*)\s*$'` applied with `fullmatch`:
token bytes up to a colon, then the value with leading whitespace
stripped (the greedy `(.*)` keeps any trailing whitespace). -/
def re_header_match (line : List Nat) : Option (List Nat × List Nat) :=
  let key := line.takeWhile isTokenByte
  match line.dropWhile isTokenByte with
  | 58 :: value =>
    if key.isEmpty then none else some (key, value.dropWhile isPySpace)
  | _ => none

/-- The `__reading` field of `ChunkedBodyReceiver`. -/
inductive ChunkReading where
  | chunk
  | trailer
  | done
deriving DecidableEq, Repr

/-- State of `ChunkedBodyReceiver`: `data` models the bytes written to
the internal `BodyFileReceiver` store (its `SpooledTemporaryFile`),
`length` the `__length` counter, `trailer` the trailer dictionary (as an
insertion-ordered list; the claims never overwrite a key). -/
structure ChunkedState where
  reading : ChunkReading
  expected : Nat
  expect_blank : Bool
  data : List Nat
  trailer : List (List Nat × List Nat)
  length : Nat
deriving DecidableEq, Repr

/-- `ChunkedBodyReceiver.__init__`. -/
def initChunked : ChunkedState :=
  { reading := ChunkReading.chunk
    expected := 0
    expect_blank := false
    data := []
    trailer := []
    length := 0 }

/-- `ChunkedBodyReceiver.receive_data(buf)`.  The two `while` loops are
modelled with explicit fuel: `outOfFuel` stands for non-termination
(which the Python code exhibits when `expected > 0` and the buffer is
empty, since `buf.read` then returns zero bytes forever).  An
`Except.ok` result with `reading ≠ done` is the early `return` taken
when `read_line` has no complete line (more data needed). -/
def chunked_receive (maxLine : Nat) :
    Nat → ChunkedState → ReadBuffer → Except PyErr (ChunkedState × ReadBuffer)
  | 0, _, _ => Except.error PyErr.outOfFuel
  | fuel + 1, st, buf =>
    match st.reading with
    | ChunkReading.chunk =>
      if 0 < st.expected then
        let rd := ReadBuffer.read (st.expected : Int) buf
        chunked_receive maxLine fuel
          { st with
            expected := st.expected - rd.1.length
            length := st.length + rd.1.length
            data := st.data ++ rd.1
            expect_blank := true } rd.2
      else
        match ReadBuffer.read_line maxLine buf with
        | Except.error e => Except.error e
        | Except.ok (none, buf') => Except.ok (st, buf')
        | Except.ok (some line, buf') =>
          if st.expect_blank then
            if line.isEmpty then
              chunked_receive maxLine fuel { st with expect_blank := false } buf'
            else
              Except.error PyErr.httpSyntax
          else
            match parse_chunk_size line with
            | Except.error e => Except.error e
            | Except.ok size =>
              if 0 < size then
                chunked_receive maxLine fuel { st with expected := size } buf'
              else
                chunked_receive maxLine fuel
                  { st with reading := ChunkReading.trailer } buf'
    | ChunkReading.trailer =>
      match ReadBuffer.read_line maxLine buf with
      | Except.error e => Except.error e
      | Except.ok (none, buf') =>
        Except.ok ({ st with reading := ChunkReading.done }, buf')
      | Except.ok (some line, buf') =>
        if line.isEmpty then
          Except.ok ({ st with reading := ChunkReading.done }, buf')
        else
          match re_header_match line with
          | none => Except.error PyErr.httpSyntax
          | some kv =>
            chunked_receive maxLine fuel
              { st with
                trailer := st.trailer ++ [(kv.1.map toLowerByte, kv.2)] } buf'
    | ChunkReading.done => Except.ok (st, buf)

/-- `ChunkedBody.send`, faithfully: it iterates the chunks in order;
`assert data` fails on an empty chunk, and otherwise the very first
`transport.write(len(data).hex())` raises `AttributeError`, because a
Python `int` has no `hex()` method. -/
def chunked_send : List (List Nat) → Except PyErr (List Nat)
  | [] => Except.ok []
  | d :: _ =>
    if d.isEmpty then Except.error PyErr.assertionError
    else Except.error PyErr.attributeError

/-- Uppercase hex digit byte for a value below 16. -/
def hexDigitByte (d : Nat) : Nat :=
  if d < 10 then 48 + d else 55 + d

/-- Uppercase hex digits of `n`, most significant first; structural on
explicit fuel so that concrete values evaluate (fuel `n + 1` always
suffices since the argument strictly shrinks). -/
def hexBytesAux : Nat → Nat → List Nat
  | 0, _ => []
  | fuel + 1, n =>
    if n < 16 then [hexDigitByte n]
    else hexBytesAux fuel (n / 16) ++ [hexDigitByte (n % 16)]

/-- Uppercase hex digits of `n` (no prefix), most significant first. -/
def hexBytes (n : Nat) : List Nat :=
  hexBytesAux (n + 1) n

deriving instance DecidableEq for Except

/-- What `ChunkedBody.send` writes per chunk under the most charitable
reading of `len(data).hex()` (the hex digits of the length): size
digits, CRLF, then the payload — and nothing after the source ends.
Even under this reading, no CRLF follows the payload and no
`0 CRLF CRLF` terminator is emitted. -/
def chunked_send_wire (chunks : List (List Nat)) : List Nat :=
  (chunks.map (fun d => hexBytes d.length ++ [13, 10] ++ d)).flatten

/-- The wire format the specification claims for the chunked encoder:
`hex-size CRLF payload CRLF` per chunk and `0 CRLF CRLF` at the end.
Stated from the spec's words, for comparison with the code's output. -/
def chunked_wire_claimed (chunks : List (List Nat)) : List Nat :=
  (chunks.map (fun d => hexBytes d.length ++ [13, 10] ++ d ++ [13, 10])).flatten
    ++ [48, 13, 10, 13, 10]

/-- A Python value as it flows through the walrus expression of the
`Expect` handling: `headers.get` yields bytes or `None`, and the `and`
chain can turn it into a `bool`. -/
inductive PyVal where
  | noneV
  | bytesV (s : String)
  | boolV (b : Bool)
deriving DecidableEq, Repr

/-- Python truthiness for the values above. -/
def PyVal.truthy : PyVal → Bool
  | PyVal.noneV => false
  | PyVal.bytesV s => !s.isEmpty
  | PyVal.boolV b => b

/-- Python `v != b"..."`: only a bytes value can compare equal to a
bytes literal; `True`, `False` and `None` are always unequal to it. -/
def PyVal.neBytes (v : PyVal) (s : String) : Bool :=
  match v with
  | PyVal.bytesV t => t != s
  | _ => true

/-- Outcome of the `Expect` handling in `HttpConnection.buffer_updated`. -/
inductive ExpectOutcome where
  | proceed
  | continue100
  | abort417
deriving DecidableEq, Repr

/-- The `Expect` handling of `HttpConnection.buffer_updated` (lines
130-138).  The source reads
`if expect := request.headers.get(b'expect') and request.http_version == b'1.1':`
— the walrus binds `expect` to the value of the whole `and` chain
(`:=` has the lowest precedence), so with the header present and
non-empty, `expect` is the *boolean* `http_version == b'1.1'`, never
the header bytes; the subsequent `expect != b'100-continue'` compares a
bool against bytes.  `expectBody` is `not request.body.ready`. -/
def expect_handling (headers : String → Option String)
    (httpVersion : String) (expectBody : Bool) : ExpectOutcome :=
  let expect : PyVal :=
    match headers "expect" with
    | none => PyVal.noneV
    | some v =>
      if v.isEmpty then PyVal.bytesV v
      else PyVal.boolV (httpVersion == "1.1")
  if expect.truthy then
    if expect.neBytes "100-continue" then ExpectOutcome.abort417
    else if expectBody then ExpectOutcome.continue100
    else ExpectOutcome.proceed
  else ExpectOutcome.proceed

/-- The body receiver installed at the end of header parsing. -/
inductive BodyKind where
  | empty
  | chunked
  | fixed (n : Int)
deriving DecidableEq, Repr

/-- Python `int(s)` for a decimal string: optional surrounding
whitespace, optional sign, one-or-more digits.  (Underscore digit
grouping, which Python also accepts, is not modelled; no claim depends
on it.) -/
def int10? (s : String) : Option Int :=
  let stripped := (((s.data.dropWhile fun c => isPySpace c.toNat).reverse).dropWhile
      fun c => isPySpace c.toNat).reverse
  let core : List Char → Option Int := fun ds =>
    if ds.isEmpty ∨ ¬ ds.all (fun c => isDigitByte c.toNat) then none
    else some ((ds.foldl (fun acc c => acc * 10 + (c.toNat - 48)) 0 : Nat) : Int)
  match stripped with
  | '-' :: ds => (core ds).map (fun v => -v)
  | '+' :: ds => core ds
  | ds => core ds

/-- The `elif value := self.headers.get(b'content-length'):` branch of
`Request._receive_data` (lines 87-93): a missing or empty header leaves
the empty body; `size = int(value)` may raise `ValueError`; a positive
size at most `maxMem = strategy.max_memory_receiver` installs
`BodyReceiver(size)`; a larger size executes
`BodyFileReceiver(size, self.strategy)` — two positional arguments to
`BodyFileReceiver.__init__(self, expected_size)`, which takes only one,
so the call raises `TypeError`. -/
def content_length_branch (headers : String → Option String) (maxMem : Int) :
    Except PyErr BodyKind :=
  match headers "content-length" with
  | some v =>
    if v.isEmpty then Except.ok BodyKind.empty
    else
      match int10? v with
      | none => Except.error PyErr.valueError
      | some size =>
        if 0 < size then
          if size ≤ maxMem then Except.ok (BodyKind.fixed size)
          else Except.error PyErr.typeError
        else Except.ok BodyKind.empty
  | none => Except.ok BodyKind.empty

/-- Body-framing selection of `Request._receive_data` (lines 81-93):
a truthy `transfer-encoding` must be exactly `chunked` and must not
coexist with a truthy `content-length`; otherwise the content-length
branch decides. -/
def select_body (headers : String → Option String) (maxMem : Int) :
    Except PyErr BodyKind :=
  match headers "transfer-encoding" with
  | some v =>
    if v.isEmpty then content_length_branch headers maxMem
    else if (match headers "content-length" with
             | some c => !c.isEmpty
             | none => false) then
      Except.error PyErr.httpSyntax
    else if v ≠ "chunked" then Except.error PyErr.notImplementedErr
    else Except.ok BodyKind.chunked
  | none => content_length_branch headers maxMem

/-- `Request.host`, i.e. `self.headers[b'host'].decode()`: a missing
key raises `KeyError` out of the dict subscript; decoding is modelled
as the identity. -/
def request_host (headers : String → Option String) : Except PyErr String :=
  match headers "host" with
  | none => Except.error PyErr.keyError
  | some v => Except.ok v

/-- End of header parsing (`Request._receive_data` lines 77-95): the
required-host check (`if not self.host: raise HttpSyntaxError`) followed
by body selection.  The HTTP version is deliberately *not* a parameter:
the code never consults it in this region. -/
def finish_headers (headers : String → Option String) (maxMem : Int) :
    Except PyErr BodyKind :=
  match request_host headers with
  | Except.error e => Except.error e
  | Except.ok h =>
    if h.isEmpty then Except.error PyErr.httpSyntax
    else select_body headers maxMem

/-- `bytes.lower()`, ASCII case folding. -/
def pyLower (s : String) : String :=
  String.mk (s.data.map Char.toLower)

/-- Keep-alive decision of `HttpConnection.buffer_updated` (lines
107-111): recomputed only while `keep_alive` is still true; then true
iff the version is 1.1 and the `connection` header is absent, empty, or
case-insensitively `keep-alive`. -/
def conn_keep_alive_ok : Option String → Bool
  | none => true
  | some c => if c.isEmpty then true else pyLower c == "keep-alive"

/-- See `conn_keep_alive_ok`: the full keep-alive recomputation of
`buffer_updated`. -/
def compute_keep_alive (keepAlive : Bool) (httpVersion : String)
    (connection : Option String) : Bool :=
  if keepAlive then httpVersion == "1.1" && conn_keep_alive_ok connection
  else keepAlive

/-- Kind of response observed by the upgrade tail of
`_response_callback`. -/
inductive RespKind where
  | upgrade
  | upgradeRequired
  | normal
deriving DecidableEq, Repr

/-- Transport/protocol actions performed during an upgrade. -/
inductive UpAction where
  | setProtocol
  | connectionMade
  | copyBytes (data : List Nat)
  | notifyCount (n : Nat)
deriving DecidableEq, Repr

/-- The upgrade tail of `HttpConnection._response_callback` (lines
169-188), reached after the response is sent.  Inputs: the request's
`connection` header value, the response kind, the current `keep_alive`
flag, the bytes still buffered (`memoryview(self.read_buffer)` = the
window `[pos, until)`), and the length of the writable region offered by
the new protocol's `get_buffer`.  Returns the actions performed and the
resulting `keep_alive` flag; the two `assert` statements are modelled as
`AssertionError`. -/
def response_upgrade (connection : Option String) (resp : RespKind)
    (keepAlive : Bool) (window : List Nat) (newBufLen : Nat → Nat) :
    Except PyErr (List UpAction × Bool) :=
  if connection = some "upgrade" then
    match resp with
    | RespKind.upgrade =>
      if !keepAlive then Except.error PyErr.assertionError
      else
        let size := window.length
        if newBufLen size < size then Except.error PyErr.assertionError
        else
          Except.ok ([UpAction.setProtocol, UpAction.connectionMade,
            UpAction.copyBytes window, UpAction.notifyCount size], keepAlive)
    | RespKind.upgradeRequired => Except.ok ([], keepAlive)
    | RespKind.normal => Except.ok ([], false)
  else Except.ok ([], keepAlive)

/-- Responses as seen by the path dispatcher: the module-level
`NOT_FOUND` singleton (compared with `is not`), a fresh `NotFound()`
instance, or any other handler response (tagged). -/
inductive Resp where
  | sentinelNotFound
  | freshNotFound
  | handler (n : Nat)
deriving DecidableEq, Repr

/-- A child dispatcher or handler, modelled by the response that
`await func(request)` returns. -/
inductive HandlerR where
  | returns (r : Resp)
deriving DecidableEq, Repr

/-- `await func(request)`. -/
def HandlerR.call : HandlerR → Resp
  | HandlerR.returns r => r

/-- `PathDispatcher.__call__` (router.py lines 186-221).  `parts` is
`request._path_route` with the next segment at the head (the Python
list is reversed and popped from its end).  `static`, `dynamic` and
`root` mirror the node's fields; dynamic matchers are always `None` as
built by `PathDispatcher.build`, and the `path_params` bind/undo pair
has no observable effect on the pure handler models.  Note the walrus
`if func := self.static.get(part):` — `func` stays bound (possibly to
`None`) and is awaited *again* in the `'.'`/empty-segment branch, which
is a `TypeError` when no static child matched. -/
def path_dispatch (static : List (String × HandlerR))
    (dynamic : List (Nat × String × HandlerR)) (root : Option HandlerR)
    (parts : List String) : Except PyErr Resp :=
  match parts with
  | [] =>
    match root with
    | some f => Except.ok f.call
    | none => Except.ok Resp.sentinelNotFound
  | part :: _rest =>
    let func := (static.find? (fun kv => kv.1 == part)).map Prod.snd
    let r1 : Option Resp :=
      func.bind (fun f =>
        if f.call != Resp.sentinelNotFound then some f.call else none)
    match r1 with
    | some resp => Except.ok resp
    | none =>
      let tail : Except PyErr Resp :=
        if part = ".." then Except.ok Resp.freshNotFound
        else
          match (dynamic.map (fun t => t.2.2.call)).find?
              (fun resp => resp != Resp.sentinelNotFound) with
          | some resp => Except.ok resp
          | none => Except.ok Resp.sentinelNotFound
      if part = "." ∨ part = "" then
        match func with
        | none => Except.error PyErr.typeError
        | some _ => tail
      else tail

/-- A Python string value tagged with its runtime type (`str` vs
`bytes`), where the `target` attribute needs it: `__init__` annotates
`self.target: str = ""` and the parser assigns `unquote(target)`, which
returns `str` even when its argument is `bytes`.  The character content
is kept as a Lean `String` in both cases. -/
inductive PyString where
  | str (s : String)
  | bytes (s : String)
deriving DecidableEq, Repr

/-- Python `.decode()`: defined on `bytes` (content kept as-is), an
`AttributeError` on `str`, which has no such method. -/
def PyString.decode : PyString → Except PyErr String
  | PyString.bytes s => Except.ok s
  | PyString.str _ => Except.error PyErr.attributeError

/-- The query-relevant state of `Request`.  `__init__` sets
`self._query = b""` and never touches it again; the start-line parse
(`Request._receive_data` line 62) assigns the *separate* attribute
`self.query` (absent before that, hence the `Option`). -/
structure Req where
  target : PyString
  query : Option String
  _query : String
deriving DecidableEq, Repr

/-- `Request.__init__` (query-relevant fields); `self.target: str = ""`
is a `str`. -/
def initRequest : Req :=
  { target := PyString.str "", query := none, _query := "" }

/-- `urllib.parse.unquote` percent-decoding on characters (UTF-8
re-combination of multi-byte sequences is collapsed to per-byte
characters; no claim depends on it). -/
def pct_unquote_aux : List Char → List Char
  | [] => []
  | '%' :: a :: b :: rest =>
    if isHexDigit a.toNat && isHexDigit b.toNat then
      Char.ofNat (hexVal a.toNat * 16 + hexVal b.toNat) :: pct_unquote_aux rest
    else '%' :: pct_unquote_aux (a :: b :: rest)
  | c :: rest => c :: pct_unquote_aux rest

/-- `urllib.parse.unquote` on a string. -/
def pct_unquote (s : String) : String :=
  String.mk (pct_unquote_aux s.data)

/-- The start-line assignments of `Request._receive_data` (lines 55-63):
`self.target = unquote(target)`, `self.query = query or b''`.  The
regex query group is `None` when the target has no `?`; the regex
groups are `bytes`, but `unquote` returns a `str`, so `target` is a
`str`.  `_query` is not assigned. -/
def process_start_line (r : Req) (target : String)
    (query : Option String) : Req :=
  { r with
    target := PyString.str (pct_unquote target)
    query := some (match query with
      | none => ""
      | some s => if s.isEmpty then "" else s) }

/-- Split a character list on a separator character (Python
`bytes.split(sep)` for a one-byte separator). -/
def splitOnChar (sep : Char) : List Char → List (List Char)
  | [] => [[]]
  | c :: rest =>
    let r := splitOnChar sep rest
    if c = sep then [] :: r
    else
      match r with
      | [] => [[c]]
      | h :: t => (c :: h) :: t

/-- `urllib.parse.unquote_plus`: `+` becomes a space, then
percent-decoding. -/
def unquote_plus (l : List Char) : String :=
  String.mk (pct_unquote_aux (l.map (fun c => if c = '+' then ' ' else c)))

/-- `urllib.parse.parse_qsl(s, keep_blank_values=True)`: split on `&`,
skip empty pairs, split each pair at its first `=` (a pair without `=`
keeps an empty value because blanks are kept), and `unquote_plus` both
components. -/
def parse_qsl (s : String) : List (String × String) :=
  (splitOnChar '&' s.data).filterMap (fun pair =>
    if pair.isEmpty then none
    else
      let name := pair.takeWhile (fun c => c != '=')
      let rest := pair.dropWhile (fun c => c != '=')
      match rest with
      | [] => some (unquote_plus name, unquote_plus [])
      | _ :: value => some (unquote_plus name, unquote_plus value))

/-- `Request.query_params`: parses `self._query` — *not* the `query`
attribute filled by the parser — with first-occurrence-wins
`setdefault`. -/
def query_params (r : Req) : List (String × String) :=
  (parse_qsl r._query).foldl
    (fun acc kv =>
      if (acc.find? (fun p => p.1 == kv.1)).isSome then acc else acc ++ [kv])
    []

/-- `Request.absolute_target` (request.py line 121), with `scheme` and
`host` abstracted from their header lookups:
`f"{self.scheme}://{self.host}{self.target.decode()}"`.  Since
`self.target` is a `str` (both the `""` from `__init__` and the
`unquote` result), the `.decode()` call raises `AttributeError` on
every access. -/
def absolute_target (scheme host : String) (r : Req) : Except PyErr String :=
  match r.target.decode with
  | Except.error e => Except.error e
  | Except.ok t => Except.ok (scheme ++ "://" ++ host ++ t)

/-- `Request.absolute_target_url` (request.py lines 124-128): evaluates
`self.absolute_target` first (so any exception from it propagates),
then appends `"." + self._query` when `self._query` is truthy (the
code joins with a dot, not a question mark, but `_query` is never
non-empty). -/
def absolute_target_url (scheme host : String) (r : Req) :
    Except PyErr String :=
  match absolute_target scheme host r with
  | Except.error e => Except.error e
  | Except.ok target =>
    Except.ok (if ¬ r._query.isEmpty then target ++ "." ++ r._query
      else target)

/-- The effective hint is positive once the capacity is above the
asserted minimum (`assert size > 9`). -/
theorem effHint_pos (h : Int) (total : Nat) (hcap : 10 ≤ total) :
    0 < ReadBuffer.effHint h total := by
  unfold ReadBuffer.effHint
  split
  · next hc => omega
  · omega

/-- C7 counterexample: a buffer of capacity 16 with one consumed byte
(`pos = 1`) and 14 buffered bytes (`until = 15`) realigns on
`write_buffer(4)` and returns a writable slice of length 2, strictly
below the `min(size_hint, capacity/4) = min(4, 4) = 4` bound stated in
the claim, even though the invariant holds and the capacity exceeds 9. -/
theorem c7_counterexample :
    (ReadBuffer.mk (List.replicate 16 0) 1 1 15).Inv ∧
    10 ≤ (ReadBuffer.mk (List.replicate 16 0) 1 1 15).buf.length ∧
    Except.map Prod.fst
      (ReadBuffer.write_buffer 4 (ReadBuffer.mk (List.replicate 16 0) 1 1 15)) =
      Except.ok 2 ∧
    2 < min (ReadBuffer.effHint 4 16) (16 / 4) := by
  refine ⟨by decide, by decide, ?_, by decide⟩
  rfl

/-- C7 (amended): for an invariant-satisfying buffer of capacity ≥ 10,
`write_buffer(size_hint)` fails with BufferFull exactly when
`pos = 0 ∧ until = capacity`; on success it returns a writable tail
slice of length at least `min(h, capacity − (until − pos))` where `h` is
`size_hint` clamped to `capacity/4` outside `(0, capacity)`, and it
realigns (after which `pos = pos_line = 0` and the window keeps its
`until − pos` bytes) exactly when `until + h > capacity ∧ pos > 0`,
leaving the state untouched otherwise. -/
theorem c7_writable_region (b : ReadBuffer) (h : Int)
    (hInv : b.Inv) (hcap : 10 ≤ b.buf.length) :
    ((ReadBuffer.write_buffer h b = Except.error PyErr.bufferFull) ↔
      (b.pos = 0 ∧ b.til = b.buf.length)) ∧
    (∀ free b', ReadBuffer.write_buffer h b = Except.ok (free, b') →
      min (ReadBuffer.effHint h b.buf.length) (b.buf.length - (b.til - b.pos))
          ≤ free ∧
      (if b.buf.length < b.til + ReadBuffer.effHint h b.buf.length ∧ 0 < b.pos
       then b'.pos = 0 ∧ b'.pos_line = 0 ∧ b'.til = b.til - b.pos ∧
            free = b.buf.length - (b.til - b.pos)
       else b' = b ∧ free = b.buf.length - b.til)) := by
  obtain ⟨hpl, hlt, htl⟩ := hInv
  have hint_pos : 0 < ReadBuffer.effHint h b.buf.length :=
    effHint_pos h b.buf.length hcap
  set H := ReadBuffer.effHint h b.buf.length with hH
  simp only [ReadBuffer.write_buffer, ← hH]
  by_cases hover : b.buf.length < b.til + H
  · rw [if_pos hover]
    by_cases hpos : 0 < b.pos
    · rw [if_pos hpos]
      refine ⟨⟨fun hc => (nomatch hc), fun hp => ?_⟩, ?_⟩
      · obtain ⟨hp0, -⟩ := hp
        exfalso
        omega
      intro free b' hok
      rw [Except.ok.injEq, Prod.mk.injEq] at hok
      obtain ⟨hfree, hb'⟩ := hok
      subst hb'
      refine ⟨by omega, ?_⟩
      rw [if_pos ⟨hover, hpos⟩]
      exact ⟨rfl, rfl, rfl, hfree.symm⟩
    · rw [if_neg hpos]
      by_cases hfull : b.buf.length ≤ b.til
      · rw [if_pos hfull]
        refine ⟨⟨fun hc => ⟨by omega, by omega⟩, fun hp => rfl⟩, ?_⟩
        intro free b' hok
        exact nomatch hok
      · rw [if_neg hfull]
        refine ⟨⟨fun hc => (nomatch hc), fun hp => ?_⟩, ?_⟩
        · obtain ⟨-, ht⟩ := hp
          exfalso
          omega
        intro free b' hok
        rw [Except.ok.injEq, Prod.mk.injEq] at hok
        obtain ⟨hfree, hb'⟩ := hok
        subst hb'
        refine ⟨by omega, ?_⟩
        rw [if_neg (by omega)]
        exact ⟨rfl, hfree.symm⟩
  · rw [if_neg hover]
    refine ⟨⟨fun hc => (nomatch hc), fun hp => ?_⟩, ?_⟩
    · obtain ⟨-, ht⟩ := hp
      exfalso
      omega
    intro free b' hok
    rw [Except.ok.injEq, Prod.mk.injEq] at hok
    obtain ⟨hfree, hb'⟩ := hok
    subst hb'
    refine ⟨by omega, ?_⟩
    rw [if_neg (by omega)]
    exact ⟨rfl, hfree.symm⟩

/-- Witness for `c7_writable_region` at a concrete buffer: capacity 16,
`pos = pos_line = 0`, `until = 4`. -/
theorem c7_writable_region_witness :
    min (ReadBuffer.effHint (-1) 16) (16 - (4 - 0)) ≤ 12 := by
  have hmain := c7_writable_region (ReadBuffer.mk (List.replicate 16 0) 0 0 4)
    (-1) (by decide) (by decide)
  have := (hmain.2 12 (ReadBuffer.mk (List.replicate 16 0) 0 0 4)) (by rfl)
  exact this.1

/-- Two adjacent slices of the same list concatenate to the enclosing
slice. -/
theorem sl_append_sl (l : List Nat) (a x t : Nat) (hax : a ≤ x)
    (hxt : x ≤ t) :
    ReadBuffer.sl l a x ++ ReadBuffer.sl l x t = ReadBuffer.sl l a t := by
  unfold ReadBuffer.sl
  have hdx : l.drop x = (l.drop a).drop (x - a) := by
    rw [List.drop_drop]
    congr 1
    omega
  have hsum : x - a + (t - x) = t - a := by omega
  rw [hdx, ← List.take_add, hsum]

/-- A hit of `findLF` lies inside the scanned range. -/
theorem findLF_bounds (l : List Nat) (s t i : Nat)
    (h : ReadBuffer.findLF l s t = some i) : s ≤ i ∧ i < t := by
  unfold ReadBuffer.findLF at h
  have hm := List.mem_of_find?_eq_some h
  rw [List.mem_range'_1] at hm
  omega

/-- `write_buffer` never loses buffered bytes: on success the window,
its size and the capacity are unchanged, and the returned slice length
is the room above the (possibly realigned) `until`. -/
theorem write_buffer_sound (h : Int) (b : ReadBuffer) (free : Nat)
    (b₁ : ReadBuffer) (hInv : b.Inv)
    (hok : ReadBuffer.write_buffer h b = Except.ok (free, b₁)) :
    b₁.Inv ∧ b₁.buf.length = b.buf.length ∧ b₁.window = b.window ∧
    free = b.buf.length - b₁.til := by
  obtain ⟨hpl, hlt, htl⟩ := hInv
  simp only [ReadBuffer.write_buffer] at hok
  split at hok
  · next hover =>
    split at hok
    · next hpos =>
      rw [Except.ok.injEq, Prod.mk.injEq] at hok
      obtain ⟨hfree, hb⟩ := hok
      subst hb
      have hlenA : ((b.buf.drop b.pos).take (b.til - b.pos)).length
          = b.til - b.pos := by
        rw [List.length_take, List.length_drop]
        omega
      have hlen : ((b.buf.drop b.pos).take (b.til - b.pos) ++
          b.buf.drop (b.til - b.pos)).length = b.buf.length := by
        rw [List.length_append, hlenA, List.length_drop]
        omega
      have hwin : ReadBuffer.window
          ⟨(b.buf.drop b.pos).take (b.til - b.pos) ++
              b.buf.drop (b.til - b.pos), 0, 0, b.til - b.pos⟩
          = ReadBuffer.window b := by
        unfold ReadBuffer.window ReadBuffer.sl
        simp only [List.drop_zero, Nat.sub_zero]
        rw [List.take_append_eq_append_take, hlenA, Nat.sub_self,
          List.take_zero, List.append_nil,
          List.take_take, Nat.min_self]
      refine ⟨⟨Nat.le_refl 0, Nat.zero_le _, ?_⟩, hlen, hwin, ?_⟩
      · show b.til - b.pos ≤ _
        rw [hlen]
        omega
      · show free = b.buf.length - (b.til - b.pos)
        omega
    · split at hok
      · exact absurd hok (by simp)
      · next hfull =>
        rw [Except.ok.injEq, Prod.mk.injEq] at hok
        obtain ⟨hfree, hb⟩ := hok
        subst hb
        exact ⟨⟨hpl, hlt, htl⟩, rfl, rfl, by omega⟩
  · next hover =>
    rw [Except.ok.injEq, Prod.mk.injEq] at hok
    obtain ⟨hfree, hb⟩ := hok
    subst hb
    exact ⟨⟨hpl, hlt, htl⟩, rfl, rfl, by omega⟩

/-- Writing `data` into the offered slice appends it to the window. -/
theorem write_data_sound (d : List Nat) (b : ReadBuffer)
    (hpt : b.pos ≤ b.til) (htl : b.til ≤ b.buf.length)
    (hlen : b.til + d.length ≤ b.buf.length) :
    (ReadBuffer.write_data d b).buf.length = b.buf.length ∧
    (ReadBuffer.write_data d b).window = b.window ++ d := by
  have hA : (b.buf.take b.til).length = b.til := by
    rw [List.length_take]
    omega
  constructor
  · unfold ReadBuffer.write_data
    simp only [List.length_append, hA, List.length_drop]
    omega
  · unfold ReadBuffer.write_data ReadBuffer.window ReadBuffer.sl
    simp only
    rw [List.append_assoc, List.drop_append_eq_append_drop, hA,
      Nat.sub_eq_zero_of_le hpt, List.drop_zero,
      List.take_append_eq_append_take]
    have hAd : ((b.buf.take b.til).drop b.pos).length = b.til - b.pos := by
      rw [List.length_drop, hA]
    rw [List.take_of_length_le (by rw [hAd]; omega)]
    have hrest : b.til + d.length - b.pos - ((b.buf.take b.til).drop b.pos).length
        = d.length := by
      rw [hAd]
      omega
    rw [hrest, List.take_append_eq_append_take, List.take_length,
      Nat.sub_self, List.take_zero, List.append_nil]
    rw [List.drop_take]

/-- Any successful operation preserves the cursor invariant and the
capacity, and moves bytes only between the window and the consumed
stream: `consumed ++ window' = window ++ delivered`. -/
theorem stepOp_sound (op : BufOp) (b : ReadBuffer) (c r : List Nat)
    (b' : ReadBuffer) (hInv : b.Inv)
    (hstep : stepOp op b = some (c, r, b')) :
    b'.Inv ∧ b'.buf.length = b.buf.length ∧
    c ++ b'.window = b.window ++ opWrite op := by
  obtain ⟨hpl, hlt, htl⟩ := hInv
  cases op with
  | write h data =>
    simp only [stepOp] at hstep
    split at hstep
    · exact (nomatch hstep)
    · next free b₁ hwb =>
      split at hstep
      · next hfit =>
        rw [Option.some.injEq, Prod.mk.injEq, Prod.mk.injEq] at hstep
        obtain ⟨hc, hr, hb⟩ := hstep
        subst hc
        subst hb
        obtain ⟨hInv₁, hlen₁, hwin₁, hfree⟩ :=
          write_buffer_sound h b free b₁ ⟨hpl, hlt, htl⟩ hwb
        obtain ⟨hpl₁, hlt₁, htl₁⟩ := hInv₁
        have hfit' : b₁.til + data.length ≤ b₁.buf.length := by omega
        obtain ⟨hdlen, hdwin⟩ :=
          write_data_sound data b₁ (le_trans hpl₁ hlt₁) htl₁ hfit'
        refine ⟨⟨hpl₁, ?_, ?_⟩, hdlen.trans hlen₁, ?_⟩
        · show b₁.pos_line ≤ b₁.til + data.length
          omega
        · show b₁.til + data.length ≤ _
          rw [hdlen]
          exact hfit'
        · rw [List.nil_append, hdwin, hwin₁]
          rfl
      · exact (nomatch hstep)
  | rd n =>
    simp only [stepOp, ReadBuffer.read] at hstep
    rw [Option.some.injEq, Prod.mk.injEq, Prod.mk.injEq] at hstep
    obtain ⟨hc, hr, hb⟩ := hstep
    subst hc
    subst hb
    have hcnt : (if 0 < n ∧ n < ((b.til - b.pos : Nat) : Int)
        then n.toNat else b.til - b.pos) ≤ b.til - b.pos := by
      split
      · next hin => omega
      · exact Nat.le_refl _
    refine ⟨⟨Nat.le_refl _, ?_, ?_⟩, rfl, ?_⟩
    · show b.pos + _ ≤ b.til
      omega
    · exact htl
    · simp only [opWrite, List.append_nil]
      exact sl_append_sl b.buf b.pos
        (b.pos + (if 0 < n ∧ n < ((b.til - b.pos : Nat) : Int)
          then n.toNat else b.til - b.pos)) b.til
        (Nat.le_add_right _ _) (by omega)
  | rdLine limit =>
    simp only [stepOp] at hstep
    split at hstep
    · exact (nomatch hstep)
    · next b₁ hrl =>
      rw [Option.some.injEq, Prod.mk.injEq, Prod.mk.injEq] at hstep
      obtain ⟨hc, hr, hb⟩ := hstep
      subst hc
      subst hb
      simp only [ReadBuffer.read_line] at hrl
      split at hrl
      · split at hrl
        · exact (nomatch hrl)
        · rw [Except.ok.injEq, Prod.mk.injEq] at hrl
          obtain ⟨-, hb₁⟩ := hrl
          rw [← hb₁]
          refine ⟨⟨?_, ?_, htl⟩, rfl, ?_⟩
          · show b.pos ≤ max b.pos (b.til - 1)
            omega
          · show max b.pos (b.til - 1) ≤ b.til
            omega
          · simp only [opWrite, List.nil_append, List.append_nil]
            rfl
      · exact (nomatch hrl)
    · next line b₁ hrl =>
      rw [Option.some.injEq, Prod.mk.injEq, Prod.mk.injEq] at hstep
      obtain ⟨hc, hr, hb⟩ := hstep
      subst hc
      subst hb
      simp only [ReadBuffer.read_line] at hrl
      split at hrl
      · split at hrl
        · exact (nomatch hrl)
        · rw [Except.ok.injEq, Prod.mk.injEq] at hrl
          exact (nomatch hrl.1)
      · next lf hf =>
        obtain ⟨hlo, hhi⟩ := findLF_bounds _ _ _ _ hf
        rw [Except.ok.injEq, Prod.mk.injEq] at hrl
        obtain ⟨-, hb₁⟩ := hrl
        rw [← hb₁]
        refine ⟨⟨Nat.le_refl _, ?_, htl⟩, rfl, ?_⟩
        · show lf + 1 ≤ b.til
          omega
        · simp only [opWrite, List.append_nil]
          exact sl_append_sl b.buf b.pos (lf + 1) b.til (by omega) (by omega)

/-- Running a sequence of successful operations preserves the invariant
and satisfies `consumed ++ window' = window ++ all deliveries`. -/
theorem runOps_sound (ops : List BufOp) :
    ∀ b : ReadBuffer, b.Inv → ∀ c r b',
      runOps ops b = some (c, r, b') →
      b'.Inv ∧ c ++ b'.window = b.window ++ writesOf ops := by
  induction ops with
  | nil =>
    intro b hInv c r b' hrun
    simp only [runOps, Option.some.injEq, Prod.mk.injEq] at hrun
    obtain ⟨hc, -, hb⟩ := hrun
    subst hc
    subst hb
    simp [writesOf]
    exact hInv
  | cons op ops ih =>
    intro b hInv c r b' hrun
    simp only [runOps] at hrun
    split at hrun
    · exact (nomatch hrun)
    · next c₀ r₀ b₁ hstep =>
      split at hrun
      · exact (nomatch hrun)
      · next c₁ r₁ b₂ hrest =>
        rw [Option.some.injEq, Prod.mk.injEq, Prod.mk.injEq] at hrun
        obtain ⟨hc, -, hb⟩ := hrun
        subst hc
        subst hb
        obtain ⟨hInv₁, -, hwin₁⟩ := stepOp_sound op b c₀ r₀ b₁ hInv hstep
        obtain ⟨hInv₂, hwin₂⟩ := ih b₁ hInv₁ c₁ r₁ b₂ hrest
        refine ⟨hInv₂, ?_⟩
        rw [List.append_assoc, hwin₂, ← List.append_assoc, hwin₁,
          writesOf, List.append_assoc]

/-- C9 counterexample: load `"a\r\nX"` into a fresh 16-byte buffer and
call `read_line`.  The caller is returned only `"a"` (the CRLF is
consumed but not returned), so the bytes *returned to readers* followed
by the remaining window give `"aX"`, not the written `"a\r\nX"` — the
claim's stream equation fails even though every operation succeeded and
each `written` respected the offered slice. -/
theorem c9_counterexample :
    (ReadBuffer.init 16 []).Inv ∧
    (runOps [BufOp.write (-1) [97, 13, 10, 88], BufOp.rdLine 1000]
        (ReadBuffer.init 16 [])).map
      (fun t => (t.2.1, t.2.2.window)) = some ([97], [88]) ∧
    [97] ++ [88] ≠
      writesOf [BufOp.write (-1) [97, 13, 10, 88], BufOp.rdLine 1000] := by
  refine ⟨by decide, ?_, by decide⟩
  rfl

/-- C9 (amended): for every operation sequence starting from an
invariant-satisfying buffer in which every step succeeds and each
`written(n)` reports at most the offered slice length, the final state
satisfies `0 ≤ pos ≤ pos_line ≤ until ≤ capacity`, and the bytes
*consumed* from the buffer (for `read_line`, the returned line together
with its LF/CRLF terminator) followed by the final window `[pos, until)`
equal the initial window followed by all bytes written. -/
theorem c9_invariant_stream (ops : List BufOp) (b₀ : ReadBuffer)
    (hInv : b₀.Inv) (c r : List Nat) (b₁ : ReadBuffer)
    (hrun : runOps ops b₀ = some (c, r, b₁)) :
    b₁.Inv ∧ c ++ b₁.window = b₀.window ++ writesOf ops :=
  runOps_sound ops b₀ hInv c r b₁ hrun

/-- Witness for `c9_invariant_stream` on the write/read_line trace of
the counterexample, starting from a fresh 16-byte buffer. -/
theorem c9_invariant_stream_witness :
    (ReadBuffer.mk ([97, 13, 10, 88] ++ List.replicate 12 0) 3 3 4).Inv ∧
    [97, 13, 10] ++
        (ReadBuffer.mk ([97, 13, 10, 88] ++ List.replicate 12 0) 3 3 4).window =
      (ReadBuffer.init 16 []).window ++
        writesOf [BufOp.write (-1) [97, 13, 10, 88], BufOp.rdLine 1000] :=
  c9_invariant_stream [BufOp.write (-1) [97, 13, 10, 88], BufOp.rdLine 1000]
    (ReadBuffer.init 16 []) (by decide) [97, 13, 10] [97]
    (ReadBuffer.mk ([97, 13, 10, 88] ++ List.replicate 12 0) 3 3 4) (by rfl)

/-- C1: the chunked round trip fails on the payload `"hi"` sent as a
single chunk.  The encoder `ChunkedBody.send` raises `AttributeError`
(`len(data).hex()`: Python ints have no `hex()` method); even reading
that call charitably as the hex digits of the length, the produced wire
lacks the CRLF after the payload and the `0 CRLF CRLF` terminator, so
the receiver never reaches `done` (the body never becomes ready).
Feeding the receiver the wire format the claim describes *does* yield
`done` with payload `"hi"`, isolating the failure to the encoder. -/
theorem c1_chunked_roundtrip_fails :
    chunked_send [[104, 105]] = Except.error PyErr.attributeError ∧
    chunked_send_wire [[104, 105]] ≠ chunked_wire_claimed [[104, 105]] ∧
    (chunked_receive 1000 20 initChunked
        (ReadBuffer.init 64 (chunked_send_wire [[104, 105]]))).map
      (fun p => (p.1.reading, p.1.data)) =
      Except.ok (ChunkReading.chunk, [104, 105]) ∧
    (chunked_receive 1000 20 initChunked
        (ReadBuffer.init 64 (chunked_wire_claimed [[104, 105]]))).map
      (fun p => (p.1.reading, p.1.data)) =
      Except.ok (ChunkReading.done, [104, 105]) := by
  refine ⟨rfl, by decide, ?_, ?_⟩
  · rfl
  · rfl

/-- C6: chunk extensions after `;` are *not* ignored.  The bare size
line `"5"` parses to 5, but `"5;ext"` fails `RE_CHUNK.fullmatch` and
raises `HttpSyntaxError("Syntax error in chunk")`, and even the
extension-less `"5;"` — which the regex does fullmatch — raises
`HttpSyntaxError("Invalid chunk size")` because the code feeds
`m.group(0)` (here `b"5;"`), not the digits group, to `int(_, 16)`. -/
theorem c6_chunk_extension_rejected :
    parse_chunk_size [53] = Except.ok 5 ∧
    parse_chunk_size [53, 59, 101, 120, 116] = Except.error PyErr.httpSyntax ∧
    parse_chunk_size [53, 59] = Except.error PyErr.httpSyntax ∧
    re_chunk_fullmatch [53, 59] = some [53, 59] := by
  decide

/-- C2: a valid `Expect: 100-continue` on an HTTP/1.1 request is
answered with 417 Expectation Failed (and the connection is closed by
`abort`), never with `100 Continue`, whether or not a body is still
expected — the walrus-bound `expect` is the boolean `True`, which is
unequal to `b"100-continue"`. -/
theorem c2_expect_100_continue_gets_417 (expectBody : Bool) :
    expect_handling
      (fun k => if k = "expect" then some "100-continue" else none)
      "1.1" expectBody = ExpectOutcome.abort417 ∧
    ExpectOutcome.abort417 ≠ ExpectOutcome.continue100 := by
  cases expectBody <;> exact ⟨rfl, by decide⟩

/-- C3: when `transfer-encoding` is absent and `content-length` parses
to `n` with `n > max_memory_receiver`, the body selection raises
`TypeError` (the spill branch calls `BodyFileReceiver(size,
self.strategy)` against a one-parameter `__init__`) instead of
installing a spill receiver of length `n`. -/
theorem c3_spill_branch_raises (headers : String → Option String)
    (maxMem : Int) (v : String) (n : Int)
    (hte : headers "transfer-encoding" = none)
    (hcl : headers "content-length" = some v)
    (hn : int10? v = some n) (hnpos : 0 < n) (hbig : maxMem < n) :
    select_body headers maxMem = Except.error PyErr.typeError := by
  have hne : v.isEmpty = false := by
    cases hemp : v.isEmpty
    · rfl
    · exfalso
      have hveq : v = "" := (String.isEmpty_iff v).mp hemp
      rw [hveq, show int10? "" = none from rfl] at hn
      exact (nomatch hn)
  simp only [select_body, hte, content_length_branch, hcl, hne,
    Bool.false_eq_true, if_false, hn]
  rw [if_pos (by omega), if_neg (by omega)]

/-- Witness for `c3_spill_branch_raises`: `content-length: 2` with a
memory threshold of 1. -/
theorem c3_spill_branch_raises_witness :
    select_body
      (fun k => if k = "content-length" then some "2" else none) 1 =
      Except.error PyErr.typeError :=
  c3_spill_branch_raises
    (fun k => if k = "content-length" then some "2" else none)
    1 "2" 2 (by decide) (by decide) (by decide) (by decide) (by decide)

/-- C4: every request that enters the upgrade branch (its `connection`
header equals `upgrade`) has `keep_alive` recomputed to `false` by
`buffer_updated`, so with an `UpgradeResponse` the branch dies on
`assert self.keep_alive, "must be kept alive"` before `set_protocol`,
`connection_made`, the byte copy, or the count notification can run —
for every HTTP version, buffered-byte content, and new-protocol buffer
size. -/
theorem c4_upgrade_asserts (httpVersion : String) (window : List Nat)
    (newBufLen : Nat → Nat) :
    compute_keep_alive true httpVersion (some "upgrade") = false ∧
    response_upgrade (some "upgrade") RespKind.upgrade
      (compute_keep_alive true httpVersion (some "upgrade")) window newBufLen
      = Except.error PyErr.assertionError := by
  have hka : compute_keep_alive true httpVersion (some "upgrade") = false := by
    unfold compute_keep_alive
    rw [if_pos rfl,
      show conn_keep_alive_ok (some "upgrade") = false from by decide,
      Bool.and_false]
  refine ⟨hka, ?_⟩
  rw [hka]
  rfl

/-- C5: a header block finishing without a `host` header raises
`KeyError` — from the `self.headers[b'host']` subscript inside the
`host` property — not the parser's `HttpSyntaxError`; the check does
not consult the HTTP version at all (`finish_headers` has no version
input), so HTTP/1.0 requests are rejected identically. -/
theorem c5_missing_host_raises_keyerror (headers : String → Option String)
    (maxMem : Int) (hnone : headers "host" = none) :
    finish_headers headers maxMem = Except.error PyErr.keyError ∧
    (Except.error PyErr.keyError : Except PyErr BodyKind) ≠
      Except.error PyErr.httpSyntax := by
  constructor
  · unfold finish_headers request_host
    rw [hnone]
  · decide

/-- Witness for `c5_missing_host_raises_keyerror`: the empty header
map. -/
theorem c5_missing_host_raises_keyerror_witness :
    finish_headers (fun _ => none) 0 = Except.error PyErr.keyError ∧
    (Except.error PyErr.keyError : Except PyErr BodyKind) ≠
      Except.error PyErr.httpSyntax :=
  c5_missing_host_raises_keyerror (fun _ => none) 0 rfl

/-- C8: popping a `"."` or `""` segment on a node with no matching
static child re-awaits the walrus-bound `func`, which is `None`, so the
dispatcher raises `TypeError` instead of recursing on the same node;
the `".."` branch does return a fresh `404 Not Found` as claimed. -/
theorem c8_dot_segment_crashes :
    path_dispatch [] [] none ["."] = Except.error PyErr.typeError ∧
    path_dispatch [] [] none [""] = Except.error PyErr.typeError ∧
    path_dispatch [] [] none [".."] = Except.ok Resp.freshNotFound :=
  ⟨rfl, rfl, rfl⟩

/-- C10 counterexample: for the parsed request `GET /p?a=1`,
`absolute_target_url` does not evaluate to a query-less URL (or any
URL): it raises `AttributeError`, because `absolute_target` calls
`self.target.decode()` on the `str` returned by `unquote`.  In
particular it is not the base URL `http://x/p` the claim's
"carries no query component" describes. -/
theorem c10_counterexample :
    absolute_target_url "http" "x"
      (process_start_line initRequest "/p" (some "a=1")) =
      Except.error PyErr.attributeError ∧
    (Except.error PyErr.attributeError : Except PyErr String) ≠
      Except.ok "http://x/p" := by
  exact ⟨rfl, by decide⟩

/-- C10 (amended): whatever query the start line carries, the parser
stores it in the `query` attribute while `_query` keeps its initial
`b""`, so `query_params` is always the empty map; and
`absolute_target_url` never produces a URL with a query component —
indeed it never produces a URL at all, raising `AttributeError` from
`absolute_target`'s `self.target.decode()` (a `str` has no `decode`)
before the `_query` branch could even run, for every parsed request. -/
theorem c10_query_params_empty (target : String) (query : Option String)
    (scheme host : String) :
    (process_start_line initRequest target query)._query = "" ∧
    query_params (process_start_line initRequest target query) = [] ∧
    absolute_target_url scheme host (process_start_line initRequest target query)
      = Except.error PyErr.attributeError ∧
    absolute_target scheme host (process_start_line initRequest target query)
      = Except.error PyErr.attributeError ∧
    (process_start_line initRequest target query).query =
      some (match query with
        | none => ""
        | some s => if s.isEmpty then "" else s) :=
  ⟨rfl, rfl, rfl, rfl, rfl⟩
